import Mathlib

/-!
# Verification of the cogos-ai knowledge-ingestion pipeline

A shallow embedding, in Lean 4, of the core of the cogos-ai ingestion
pipeline:

* the quality controller
  (`src/backend/ingestion/quality_control/quality_controller.py`),
* the storage manager
  (`src/backend/ingestion/storage/storage_manager.py`),
* the ingestion coordinator
  (`src/app/api/ingestion/ingestion_coordinator.py`).

Modelling conventions:

* Python `float` scores are modelled as `ℚ` (every score produced by the
  quality controller is an exact small decimal, so no rounding behaviour is
  lost).
* Python text is modelled as `String` / `List Char`, with the usual ASCII
  approximation of the Unicode-aware classifiers (`str.isalpha`,
  `str.isprintable`, `\w`, `\s`); the embedded predicates agree with Python
  on ASCII text.
* Python exceptions are modelled with `Except PyErr`; a `try/except` block
  becomes a `match` on the `Except` value.
* Mutable instance state (the duplicate-detection hash set and fingerprint
  map, the SQLite tables) is passed explicitly.
* External I/O (writing a content file, writing the ingestion report) is
  modelled by environment records that say whether a given write raises.
* The MD5 digest used for duplicate detection is modelled by the normalized
  text itself: the digest is a pure function of the normalized text, so the
  model preserves "equal normalized text gives equal digest"; hash
  collisions are not modelled.
* Wall-clock timestamps (`datetime.now()`) are not modelled; fields holding
  them become `Bool` flags ("has been set") or are omitted, as noted at each
  structure.
-/

/-- Python exception values, as far as the embedded code distinguishes them. -/
inductive PyErr where
  | zeroDivision : PyErr
  | attributeMissing (attr : String) : PyErr
  | osWriteFailure (path : String) : PyErr
deriving Repr, DecidableEq

/-! ## Python string primitives (ASCII approximation) -/

/-- Python whitespace (`\s` over ASCII): space, tab, newline, carriage
return, vertical tab, form feed. -/
def pyIsSpace (c : Char) : Bool :=
  c = ' ' || c = '\t' || c = '\n' || c = '\r' || c = Char.ofNat 11 || c = Char.ofNat 12

/-- Python `str.isprintable` restricted to ASCII: the printable range
0x20 to 0x7e. -/
def pyIsPrintable (c : Char) : Bool :=
  32 ≤ c.toNat && c.toNat ≤ 126

/-- ASCII letter test (`str.isalpha` on ASCII text). -/
def pyIsAlphaChar (c : Char) : Bool :=
  ('a' ≤ c && c ≤ 'z') || ('A' ≤ c && c ≤ 'Z')

/-- ASCII uppercase test (`str.isupper` on a single ASCII character). -/
def pyIsUpperChar (c : Char) : Bool :=
  'A' ≤ c && c ≤ 'Z'

/-- ASCII lowercase test. -/
def pyIsLowerChar (c : Char) : Bool :=
  'a' ≤ c && c ≤ 'z'

/-- ASCII digit test. -/
def pyIsDigitChar (c : Char) : Bool :=
  '0' ≤ c && c ≤ '9'

/-- Regex word character `\w` over ASCII: letters, digits, underscore. -/
def pyIsWordChar (c : Char) : Bool :=
  pyIsAlphaChar c || pyIsDigitChar c || c = '_'

/-- ASCII lowering of one character (`str.lower` on ASCII text). -/
def pyLowerChar (c : Char) : Char :=
  if pyIsUpperChar c then Char.ofNat (c.toNat + 32) else c

/-- `str.lower` over a character list. -/
def pyLowerList (s : List Char) : List Char :=
  s.map pyLowerChar

/-- `str.strip()`: drop leading and trailing Python whitespace. -/
def pyStripList (s : List Char) : List Char :=
  ((s.dropWhile pyIsSpace).reverse.dropWhile pyIsSpace).reverse

/-- Helper for `str.split()`: split on whitespace runs, discarding empty
pieces.  `acc` is the word currently being read. -/
def pySplitWsAux : List Char → List Char → List (List Char)
  | [], acc => if acc.isEmpty then [] else [acc]
  | c :: cs, acc =>
      if pyIsSpace c then
        if acc.isEmpty then pySplitWsAux cs [] else acc :: pySplitWsAux cs []
      else
        pySplitWsAux cs (acc ++ [c])

/-- Python `str.split()` with no argument: the list of whitespace-separated
words. -/
def pyWords (s : String) : List (List Char) :=
  pySplitWsAux s.toList []

/-- Helper for `re.sub(r'\s+', ' ', s)`: collapse every whitespace run to a
single space.  `inRun` records whether the previous character was
whitespace. -/
def collapseWsAux : List Char → Bool → List Char
  | [], _ => []
  | c :: cs, inRun =>
      if pyIsSpace c then
        if inRun then collapseWsAux cs true else ' ' :: collapseWsAux cs true
      else
        c :: collapseWsAux cs false

/-- `re.sub(r'\s+', ' ', s)`. -/
def collapseWs (s : List Char) : List Char :=
  collapseWsAux s false

/-- Helper for `re.split(r'[.!?]+', s)`-style splitting: split on maximal
nonempty runs of characters satisfying `p`, keeping empty pieces (Python
`re.split` semantics). -/
def reSplitRunsAux (p : Char → Bool) : List Char → List Char → Bool → List (List Char)
  | [], acc, _ => [acc]
  | c :: cs, acc, inRun =>
      if p c then
        if inRun then reSplitRunsAux p cs acc true
        else acc :: reSplitRunsAux p cs [] true
      else
        reSplitRunsAux p cs (acc ++ [c]) false

/-- `re.split` on a character class: runs of matching characters are single
delimiters. -/
def reSplitRuns (p : Char → Bool) (s : List Char) : List (List Char) :=
  reSplitRunsAux p s [] false

/-- Python `str.split(d)` for a one-character separator `d`, keeping empty
pieces. -/
def splitChar (d : Char) : List Char → List (List Char)
  | [] => [[]]
  | c :: cs =>
      if c = d then [] :: splitChar d cs
      else
        match splitChar d cs with
        | [] => [[c]]
        | a :: rest => (c :: a) :: rest

/-- Substring test: `pat in s` for Python strings. -/
def containsSub (pat s : List Char) : Bool :=
  s.tails.any (fun t => pat.isPrefixOf t)

/-- Python truthiness-driven `a or b` on strings: the first operand unless
it is empty. -/
def pyOr (a b : String) : String :=
  if a = "" then b else a

/-- `len(s.split(sep))` for a multi-character separator, used only through
`content.split('\n\n')`; the split is computed with explicit fuel (one unit
per character) so that it evaluates by kernel reduction. -/
def splitOnSubAux (sep : List Char) : Nat → List Char → List Char → List (List Char)
  | _, [], acc => [acc]
  | 0, s, acc => [acc ++ s]
  | fuel + 1, c :: cs, acc =>
      if sep.isPrefixOf (c :: cs) then
        acc :: splitOnSubAux sep fuel ((c :: cs).drop sep.length) []
      else
        splitOnSubAux sep fuel cs (acc ++ [c])

/-- Python `s.split(sep)` for a nonempty separator string. -/
def splitOnSub (sep : List Char) (s : List Char) : List (List Char) :=
  splitOnSubAux sep s.length s []

/-! ## Regex scanners

`re.findall` counts for the fixed patterns appearing in the quality
controller.  Each pattern is compiled by hand into a `step` function that,
given the previous character (for `\b` word boundaries) and the remaining
text, reports the length of the match starting here, if any.  The generic
scanner advances past each match (Python `findall` returns non-overlapping
matches, scanning left to right).  For each pattern the step function is
exactly the set of positions at which the Python regex engine matches: the
bounded quantifiers involved admit no alternative backtracking parses, as
noted per pattern. -/

/-- Generic left-to-right non-overlapping match counter.  `prev` is the
character immediately before the current position (`none` at the start of
the text); fuel is one unit per character. -/
def scanCountAux (step : Option Char → List Char → Option Nat) :
    Option Char → Nat → List Char → Nat
  | _, 0, _ => 0
  | _, _, [] => 0
  | prev, fuel + 1, c :: rest =>
      match step prev (c :: rest) with
      | some n =>
          let m := max n 1
          1 + scanCountAux step ((c :: rest).get? (m - 1)) fuel ((c :: rest).drop m)
      | none => scanCountAux step (some c) fuel rest

/-- Count the non-overlapping matches of a hand-compiled pattern. -/
def scanCount (step : Option Char → List Char → Option Nat) (s : List Char) : Nat :=
  scanCountAux step none s.length s

/-- A word boundary holds before the current position. -/
def boundaryBefore (prev : Option Char) : Bool :=
  match prev with
  | none => true
  | some c => !pyIsWordChar c

/-- No word character follows position `n` in `s` (so `\b` holds there). -/
def boundaryAt (s : List Char) (n : Nat) : Bool :=
  match s.get? n with
  | none => true
  | some c => !pyIsWordChar c

/-- `\b[A-Z]{2,}\b` (acronyms): a maximal uppercase run of length at least
two, with word boundaries on both sides.  A shorter parse would place `\b`
between two word characters, so maximal runs are the only matches. -/
def stepAcronym (prev : Option Char) (s : List Char) : Option Nat :=
  if boundaryBefore prev then
    let run := s.takeWhile pyIsUpperChar
    if 2 ≤ run.length && boundaryAt s run.length then some run.length else none
  else none

/-- `\b\w+\(\)` (function calls): a word run followed by `()`. -/
def stepFuncCall (prev : Option Char) (s : List Char) : Option Nat :=
  if boundaryBefore prev then
    let run := s.takeWhile pyIsWordChar
    if 1 ≤ run.length && s.get? run.length = some '(' &&
        s.get? (run.length + 1) = some ')' then
      some (run.length + 2)
    else none
  else none

/-- `https?://` (URLs). -/
def stepUrl (_prev : Option Char) (s : List Char) : Option Nat :=
  if "https://".toList.isPrefixOf s then some 8
  else if "http://".toList.isPrefixOf s then some 7
  else none

/-- `\b\d+\.\d+\b` (version numbers): two maximal digit runs joined by a
dot, with word boundaries on both sides. -/
def stepVersion (prev : Option Char) (s : List Char) : Option Nat :=
  if boundaryBefore prev then
    let d1 := s.takeWhile pyIsDigitChar
    if 1 ≤ d1.length && s.get? d1.length = some '.' then
      let rest := s.drop (d1.length + 1)
      let d2 := rest.takeWhile pyIsDigitChar
      if 1 ≤ d2.length && boundaryAt rest d2.length then
        some (d1.length + 1 + d2.length)
      else none
    else none
  else none

/-- `\b[a-z]+_[a-z]+\b` (snake case): two maximal lowercase runs joined by
an underscore, with word boundaries on both sides. -/
def stepSnake (prev : Option Char) (s : List Char) : Option Nat :=
  if boundaryBefore prev then
    let a := s.takeWhile pyIsLowerChar
    if 1 ≤ a.length && s.get? a.length = some '_' then
      let rest := s.drop (a.length + 1)
      let b := rest.takeWhile pyIsLowerChar
      if 1 ≤ b.length && boundaryAt rest b.length then
        some (a.length + 1 + b.length)
      else none
    else none
  else none

/-- `\b[a-z]+[A-Z]\w*\b` (camel case): a maximal lowercase run, one
uppercase letter, then a maximal word run; the trailing `\b` is automatic
after a maximal word run. -/
def stepCamel (prev : Option Char) (s : List Char) : Option Nat :=
  if boundaryBefore prev then
    let a := s.takeWhile pyIsLowerChar
    if 1 ≤ a.length then
      match s.get? a.length with
      | some c =>
          if pyIsUpperChar c then
            let w := (s.drop (a.length + 1)).takeWhile pyIsWordChar
            some (a.length + 1 + w.length)
          else none
      | none => none
    else none
  else none

/-- `\b\d+\b` (bare integers): a maximal digit run delimited by word
boundaries. -/
def stepIntToken (prev : Option Char) (s : List Char) : Option Nat :=
  if boundaryBefore prev then
    let run := s.takeWhile pyIsDigitChar
    if 1 ≤ run.length && boundaryAt s run.length then some run.length else none
  else none

/-- The bracket character class `[{}[\]()]`. -/
def isBracketChar (c : Char) : Bool :=
  c = Char.ofNat 123 || c = Char.ofNat 125 || c = '[' || c = ']' || c = '(' || c = ')'

/-- `QualityController._count_technical_indicators`: the sum of the match
counts of the seven technical patterns. -/
def countTechnicalIndicators (content : List Char) : Nat :=
  scanCount stepAcronym content +
  scanCount stepFuncCall content +
  scanCount stepUrl content +
  scanCount stepVersion content +
  (content.filter isBracketChar).length +
  scanCount stepSnake content +
  scanCount stepCamel content

/-! ## Quality levels -/

/-- `QualityLevel` enum from the quality controller. -/
inductive QualityLevel where
  | excellent : QualityLevel
  | good : QualityLevel
  | acceptable : QualityLevel
  | poor : QualityLevel
  | rejected : QualityLevel
deriving Repr, DecidableEq

/-- The `.value` strings of the `QualityLevel` enum. -/
def QualityLevel.value : QualityLevel → String
  | .excellent => "excellent"
  | .good => "good"
  | .acceptable => "acceptable"
  | .poor => "poor"
  | .rejected => "rejected"

/-- The spec ordering REJECTED < POOR < ACCEPTABLE < GOOD < EXCELLENT,
as a rank. -/
def QualityLevel.rank : QualityLevel → Nat
  | .rejected => 0
  | .poor => 1
  | .acceptable => 2
  | .good => 3
  | .excellent => 4

/-- `QualityController._determine_quality_level`, with the hard-coded
`quality_thresholds` map from `__init__` (EXCELLENT 8.0, GOOD 6.0,
ACCEPTABLE 4.0, POOR 2.0) inlined at its single use site. -/
def determineQualityLevel (score : ℚ) : QualityLevel :=
  if 8 ≤ score then .excellent
  else if 6 ≤ score then .good
  else if 4 ≤ score then .acceptable
  else if 2 ≤ score then .poor
  else .rejected

/-! ## Content items and controller configuration -/

/-- The quality-control configuration (`QualityController.__init__`), with
the documented defaults from `config.get`. -/
structure QCConfig where
  min_quality_score : ℚ := 3
  duplicate_threshold : ℚ := 17 / 20
  min_content_length : Nat := 50
  max_content_length : Nat := 1000000
deriving Repr, DecidableEq

/-- A content-item dictionary as consumed by `validate_single_content`.
Each field models one dictionary key; `none` means the key is absent,
`some ""` a present but falsy value.  Values other than strings do not
occur on the keys the controller reads. -/
structure ContentItem where
  id : Option String := none
  content_id : Option String := none
  content : Option String := none
  processed_content : Option String := none
  source : Option String := none
  name : Option String := none
  title : Option String := none
  path : Option String := none
  created_time : Option String := none
  modified_time : Option String := none
  collection_time : Option String := none
deriving Repr, DecidableEq

/-- `content_item.get('id', '') or content_item.get('content_id', '')`. -/
def resolvedId (item : ContentItem) : String :=
  pyOr (item.id.getD "") (item.content_id.getD "")

/-- `content_item.get('content', '') or content_item.get('processed_content', '')`. -/
def resolvedContent (item : ContentItem) : String :=
  pyOr (item.content.getD "") (item.processed_content.getD "")

/-- The duplicate-detection state of one `QualityController` instance:
`content_hashes` (a set, as a duplicate-free list) and
`content_fingerprints` (an insertion-ordered dict from content id to
hash). -/
structure DedupState where
  contentHashes : List String := []
  contentFingerprints : List (String × String) := []
deriving Repr, DecidableEq

/-- Python `set.add`. -/
def setInsert (x : String) (l : List String) : List String :=
  if x ∈ l then l else x :: l

/-- Python dict assignment `d[k] = v`: replace the value if the key is
present, else append the new binding. -/
def dictSet (k v : String) (l : List (String × String)) : List (String × String) :=
  if l.any (fun p => p.1 = k) then
    l.map (fun p => if p.1 = k then (k, v) else p)
  else
    l ++ [(k, v)]

/-- `QualityController._generate_content_hash`: normalize the content
(lower-case, strip, collapse whitespace runs) and digest it.  The MD5
digest is modelled by the normalized text itself (see the module header). -/
def genContentHash (content : String) : String :=
  String.mk (collapseWs (pyStripList (pyLowerList content.toList)))

/-! ## The seven dimension checks -/

/-- `QualityController._validate_content_length`. -/
def validateContentLength (cfg : QCConfig) (content : String) : List String × ℚ :=
  let length := (pyStripList content.toList).length
  if length < cfg.min_content_length then
    (["Content too short"], 1)
  else if cfg.max_content_length < length then
    (["Content too long"], 3)
  else if length < 100 then
    (["Content is quite short, may lack detail"], 6)
  else if 500000 < length then
    (["Content is very long, may need chunking"], 7)
  else
    ([], 10)

/-- `QualityController._calculate_content_similarity`: a Jaccard-style
placeholder; for every stored fingerprint whose hash differs from the new
hash the similarity is `w / (w + 100)` where `w` is the number of distinct
words of the normalized content, and the maximum over fingerprints is
returned. -/
def calculateContentSimilarity (content : String) (contentHash : String)
    (st : DedupState) : ℚ :=
  let normalized := collapseWs (pyStripList (pyLowerList content.toList))
  let contentWords := (pySplitWsAux normalized []).dedup
  st.contentFingerprints.foldl
    (fun maxSim p =>
      if p.2 = contentHash then maxSim
      else max maxSim ((contentWords.length : ℚ) / ((contentWords.length : ℚ) + 100)))
    0

/-- `QualityController._check_duplicates`. -/
def checkDuplicates (cfg : QCConfig) (content : String) (_content_id : String)
    (st : DedupState) : List String × ℚ :=
  let contentHash := genContentHash content
  if contentHash ∈ st.contentHashes then
    (["Exact duplicate content detected"], 0)
  else
    let similarity := calculateContentSimilarity content contentHash st
    if cfg.duplicate_threshold < similarity then
      (["Near-duplicate content detected"], 2)
    else if (7 : ℚ) / 10 < similarity then
      (["Similar content exists"], 6)
    else
      ([], 10)

/-- `QualityController._is_mostly_garbled`: empty content, printable ratio
below 0.8, or alphabetic ratio below 0.3. -/
def isMostlyGarbled (content : String) : Bool :=
  let cs := content.toList
  if cs.isEmpty then true
  else
    let printable := (cs.filter pyIsPrintable).length
    if ((printable : ℚ) / (cs.length : ℚ)) < 4 / 5 then true
    else
      let alpha := (cs.filter pyIsAlphaChar).length
      if ((alpha : ℚ) / (cs.length : ℚ)) < 3 / 10 then true
      else false

/-- `QualityController._has_excessive_repetition`: with at least five
lines, some stripped line of more than ten characters repeats on more than
20 percent of the lines. -/
def hasExcessiveRepetition (content : String) : Bool :=
  let lines := splitChar '\n' content.toList
  if lines.length < 5 then false
  else
    let substantial := (lines.map pyStripList).filter (fun l => 10 < l.length)
    let counts := substantial.map (fun l => (substantial.filter (fun m => m = l)).length)
    let maxRepetition := counts.foldl max 0
    (1 : ℚ) / 5 < (maxRepetition : ℚ) / (lines.length : ℚ)

/-- Is there a run of at least `n` consecutive characters satisfying `p`? -/
def hasRunOf (p : Char → Bool) (n : Nat) (s : List Char) : Bool :=
  s.tails.any (fun t => (t.takeWhile p).length ≥ n)

/-- `QualityController._has_language_mixing_issues`: a run of five or more
non-ASCII characters, a run of two or more control characters, or the
literal pattern U+00EF U+00BF followed by two or more U+00BD (the source
file's mojibake spelling of repeated replacement characters). -/
def hasLanguageMixingIssues (content : String) : Bool :=
  let cs := content.toList
  hasRunOf (fun c => 127 < c.toNat) 5 cs ||
  hasRunOf (fun c => c.toNat ≤ 31) 2 cs ||
  cs.tails.any (fun t =>
    match t with
    | a :: b :: rest =>
        a = Char.ofNat 0xEF && b = Char.ofNat 0xBF &&
        (rest.takeWhile (fun c => c = Char.ofNat 0xBD)).length ≥ 2
    | _ => false)

/-- `QualityController._assess_coherence`. -/
def assessCoherence (content : String) : ℚ :=
  let sentences := reSplitRuns (fun c => c = '.' || c = '!' || c = '?') content.toList
  if sentences.length < 3 then 1
  else
    let totalWords := (sentences.map (fun s => (pySplitWsAux s []).length)).sum
    let avgSentenceLength := (totalWords : ℚ) / (sentences.length : ℚ)
    let coherence : ℚ :=
      if 5 ≤ avgSentenceLength ∧ avgSentenceLength ≤ 30 then 4 / 5
      else if 3 ≤ avgSentenceLength ∧ avgSentenceLength ≤ 50 then 3 / 5
      else 3 / 10
    let paragraphs := splitOnSub ['\n', '\n'] content.toList
    let coherence := if 1 < paragraphs.length then coherence + 1 / 5 else coherence
    min coherence 1

/-- `QualityController._assess_information_value`. -/
def assessInformationValue (content : String) : ℚ :=
  let words := pyWords content
  if words.isEmpty then 0
  else
    let value : ℚ := 1 / 2
    let technicalScore := countTechnicalIndicators content.toList
    let value := value + min ((technicalScore : ℚ) * (1 / 20)) (3 / 10)
    let properNouns := (words.filter (fun w =>
      (w.headD ' ' |> pyIsUpperChar) && w.all pyIsAlphaChar)).length
    let value := value + min ((properNouns : ℚ) / (words.length : ℚ)) (1 / 5)
    let numbers := scanCount stepIntToken content.toList
    let value := value + min ((numbers : ℚ) / (words.length : ℚ)) (1 / 10)
    min value 1

/-- `QualityController._analyze_content_quality`. -/
def analyzeContentQuality (content : String) : List String × ℚ :=
  if isMostlyGarbled content then
    (["Content appears to be garbled or corrupted"], 1)
  else
    let issues : List String := []
    let score : ℚ := 10
    let (issues, score) :=
      if hasExcessiveRepetition content then
        (issues ++ ["Content has excessive repetition"], min score 4)
      else (issues, score)
    let (issues, score) :=
      if hasLanguageMixingIssues content then
        (issues ++ ["Content has language mixing or encoding issues"], min score 6)
      else (issues, score)
    let coherenceScore := assessCoherence content
    let (issues, score) :=
      if coherenceScore < 3 / 10 then
        (issues ++ ["Content lacks coherence or structure"], min score 5)
      else if coherenceScore < 3 / 5 then
        (issues ++ ["Content structure could be improved"], min score 7)
      else (issues, score)
    let infoValue := assessInformationValue content
    let (issues, score) :=
      if infoValue < 3 / 10 then
        (issues ++ ["Content has low information value"], min score 4)
      else if infoValue < 3 / 5 then
        (issues ++ ["Content could be more informative"], min score 7)
      else (issues, score)
    (issues, score)

/-- The special-character class of `_validate_format`: the complement of
`[\w\s.,!?;:\-()"']`. -/
def isSpecialChar (c : Char) : Bool :=
  !(pyIsWordChar c || pyIsSpace c || c = '.' || c = ',' || c = '!' || c = '?' ||
    c = ';' || c = ':' || c = '-' || c = '(' || c = ')' || c = '"' || c = Char.ofNat 39)

/-- `QualityController._validate_format`.  The special-character ratio
divides by `len(content)` with no guard, so empty content raises
`ZeroDivisionError` (hence the `Except`).  The `content.encode('utf-8')`
check cannot fail on a Python `str`, so the encoding branch is never
taken. -/
def validateFormat (content : String) (item : ContentItem) :
    Except PyErr (List String × ℚ) :=
  let cs := content.toList
  if cs.isEmpty then .error .zeroDivision
  else
    let issues : List String := []
    let score : ℚ := 10
    let specialRatio := ((cs.filter isSpecialChar).length : ℚ) / (cs.length : ℚ)
    let (issues, score) :=
      if 1 / 10 < specialRatio then
        (issues ++ ["Content has too many special characters or symbols"], min score 6)
      else (issues, score)
    let sentences := reSplitRuns (fun c => c = '.' || c = '!' || c = '?') cs
    let (issues, score) :=
      if 10 < sentences.length then
        let totalWords := (sentences.map (fun s => (pySplitWsAux s []).length)).sum
        let avg := (totalWords : ℚ) / (sentences.length : ℚ)
        if avg < 3 then
          (issues ++ ["Sentences are too short on average"], min score 7)
        else if 50 < avg then
          (issues ++ ["Sentences are too long on average"], min score 7)
        else (issues, score)
      else (issues, score)
    let fileName := item.name.getD ""
    let (issues, score) :=
      if containsSub "pdf".toList (pyLowerList fileName.toList) &&
          (pyWords content).length < 50 then
        (issues ++ ["PDF extraction may have failed"], min score 4)
      else (issues, score)
    .ok (issues, score)

/-- The filler-word set of `_check_information_density`. -/
def fillerWords : List String :=
  ["the", "a", "an", "and", "or", "but", "in", "on", "at", "to", "for"]

/-- `QualityController._check_information_density`. -/
def checkInformationDensity (content : String) : List String × ℚ :=
  let words := pyWords content
  if words.isEmpty then
    (["No extractable words found"], 1)
  else
    let issues : List String := []
    let score : ℚ := 10
    let uniqueWords := ((words.filter (fun w => w.all pyIsAlphaChar)).map
      (fun w => pyLowerList w)).dedup
    let uniqueRatio := (uniqueWords.length : ℚ) / (words.length : ℚ)
    let (issues, score) :=
      if uniqueRatio < 3 / 10 then
        (issues ++ ["Low vocabulary diversity"], min score 5)
      else if uniqueRatio < 1 / 2 then
        (issues ++ ["Moderate vocabulary diversity"], min score 7)
      else (issues, score)
    let fillerCount := (words.filter (fun w =>
      fillerWords.any (fun f => f.toList = pyLowerList w))).length
    let fillerRatio := (fillerCount : ℚ) / (words.length : ℚ)
    let (issues, score) :=
      if 1 / 2 < fillerRatio then
        (issues ++ ["High ratio of filler words"], min score 6)
      else (issues, score)
    let technicalIndicators := countTechnicalIndicators content.toList
    let score := if 5 < technicalIndicators then min (score + 1) 10 else score
    (issues, score)

/-- Approximation of Python `datetime.fromisoformat` acceptance (after the
source's `replace('Z', '+00:00')`): only the date-only form `YYYY-MM-DD`
with plausible month and day ranges is modelled.  Every claim proved below
is independent of which strings parse. -/
def pyFromisoformatOk (s : String) : Bool :=
  let cs := s.toList
  let month : Nat := ((cs.drop 5).take 2).foldl (fun n c => 10 * n + (c.toNat - 48)) 0
  let day : Nat := (cs.drop 8).foldl (fun n c => 10 * n + (c.toNat - 48)) 0
  decide (cs.length = 10) &&
  (cs.take 4).all pyIsDigitChar &&
  decide (cs.get? 4 = some '-') &&
  ((cs.drop 5).take 2).all pyIsDigitChar &&
  decide (cs.get? 7 = some '-') &&
  (cs.drop 8).all pyIsDigitChar &&
  decide (1 ≤ month) && decide (month ≤ 12) &&
  decide (1 ≤ day) && decide (day ≤ 31)

/-- `QualityController._validate_metadata`. -/
def validateMetadata (item : ContentItem) : List String × ℚ :=
  let issues : List String := []
  let score : ℚ := 10
  let requiredMissing := fun (f : Option String) => f.isNone || f = some ""
  let (issues, score) :=
    if requiredMissing item.source then
      (issues ++ ["Missing required metadata: source"], min score 6)
    else (issues, score)
  let (issues, score) :=
    if requiredMissing item.collection_time then
      (issues ++ ["Missing required metadata: collection_time"], min score 6)
    else (issues, score)
  let missingRecommended :=
    item.created_time.isNone || item.modified_time.isNone ||
    item.title.isNone || item.path.isNone
  let (issues, score) :=
    if missingRecommended then
      (issues ++ ["Missing recommended metadata"], min score 8)
    else (issues, score)
  let badTimestamp := fun (f : Option String) =>
    match f with
    | some s => s ≠ "" && !pyFromisoformatOk s
    | none => false
  let (issues, score) :=
    if badTimestamp item.created_time then
      (issues ++ ["Invalid timestamp format in created_time"], min score 7)
    else (issues, score)
  let (issues, score) :=
    if badTimestamp item.modified_time then
      (issues ++ ["Invalid timestamp format in modified_time"], min score 7)
    else (issues, score)
  let (issues, score) :=
    if badTimestamp item.collection_time then
      (issues ++ ["Invalid timestamp format in collection_time"], min score 7)
    else (issues, score)
  (issues, score)

/-- The high- and low-reliability source lists of
`_check_source_reliability`. -/
def highReliabilitySources : List String :=
  ["academic", "research", "documentation", "official", "apple_notes", "obsidian"]

/-- Low-reliability source markers. -/
def lowReliabilitySources : List String :=
  ["unknown", "temp", "cache"]

/-- `QualityController._check_source_reliability`. -/
def checkSourceReliability (item : ContentItem) : List String × ℚ :=
  let source := String.mk (pyLowerList (item.source.getD "").toList)
  let issues : List String := []
  let score : ℚ := 10
  let score :=
    if highReliabilitySources.any (fun r => containsSub r.toList source.toList) then
      min (score + 1) 10
    else score
  let (issues, score) :=
    if lowReliabilitySources.any (fun r => containsSub r.toList source.toList) then
      (issues ++ ["Content from potentially unreliable source"], min score 6)
    else (issues, score)
  let content := item.content.getD ""
  let lowered := pyLowerList content.toList
  let (issues, score) :=
    if containsSub "viagra".toList lowered || containsSub "click here".toList lowered then
      (issues ++ ["Content may contain spam or promotional material"], min score 3)
    else (issues, score)
  (issues, score)

/-- `QualityController._generate_suggestions`: substring checks against the
issue list rendered as text (`str(issues)` in the source; the rendering is
modelled by joining the issue strings, which preserves membership of each
checked phrase). -/
def generateSuggestions (issues : List String) (_content : String)
    (_item : ContentItem) : List String :=
  let issuesStr := (String.intercalate ", " issues).toList
  let sug : List String := []
  let sug := if containsSub "Content too short".toList issuesStr then
    sug ++ ["Consider combining with related content or adding more context"] else sug
  let sug := if containsSub "excessive repetition".toList issuesStr then
    sug ++ ["Remove repeated sections and consolidate similar information"] else sug
  let sug := if containsSub "encoding issues".toList issuesStr then
    sug ++ ["Re-extract content with proper encoding handling"] else sug
  let sug := if containsSub "Low vocabulary diversity".toList issuesStr then
    sug ++ ["Content may be incomplete or require manual review"] else sug
  let sug := if containsSub "Missing metadata".toList issuesStr then
    sug ++ ["Enrich metadata by analyzing file properties and content"] else sug
  let sug := if containsSub "PDF extraction may have failed".toList issuesStr then
    sug ++ ["Try alternative PDF extraction methods or manual processing"] else sug
  let sug := if containsSub "garbled or corrupted".toList issuesStr then
    sug ++ ["Re-extract from original source or exclude from processing"] else sug
  let sug := if containsSub "duplicate content".toList issuesStr then
    sug ++ ["Merge with existing content or identify as reference"] else sug
  sug

/-! ## validate_single_content -/

/-- The `QualityReport` dataclass.  `metadata` keys `content_length`,
`word_count` and `source` are modelled as fields with an `md_` prefix; the
`validation_time` entry and the `timestamp` field hold wall-clock strings
and are not modelled. -/
structure QualityReport where
  content_id : String
  quality_level : QualityLevel
  score : ℚ
  issues : List String
  suggestions : List String
  md_content_length : Nat
  md_word_count : Nat
  md_source : String
deriving Repr, DecidableEq

/-- Python `round(q, 2)`.  Every score reaching this call is an integer (all
dimension scores are whole numbers and the combination preserves
integrality), so the difference between Python banker's rounding and
`round` is immaterial; monotonicity and fixing of integers are all the
proofs use. -/
def pyRound2 (q : ℚ) : ℚ :=
  ((round (q * 100) : ℤ) : ℚ) / 100

/-- The score-combination of `validate_single_content` lines 81-116: start
at 10.0, subtract the length and duplication penalties
(`score -= (10.0 - dimension_score)`), then cap with each of the five
remaining dimensions (`score = min(score, dimension_score)`) in source
order: content quality, format, information density, metadata, source
reliability. -/
def combinedScore (lenS dupS qualS fmtS densS metaS srcS : ℚ) : ℚ :=
  let score : ℚ := 10
  let score := score - (10 - lenS)
  let score := score - (10 - dupS)
  let score := min score qualS
  let score := min score fmtS
  let score := min score densS
  let score := min score metaS
  let score := min score srcS
  score

/-- `QualityController.validate_single_content`.  Returns the report and
the updated duplicate-detection state; empty resolved content raises
`ZeroDivisionError` inside `_validate_format` (propagated to the caller,
as in the source, before any state mutation). -/
def validateSingleContent (cfg : QCConfig) (item : ContentItem) (st : DedupState) :
    Except PyErr (QualityReport × DedupState) :=
  let content_id := resolvedId item
  let content := resolvedContent item
  let lengthRes := validateContentLength cfg content
  let dupRes := checkDuplicates cfg content content_id st
  let qualityRes := analyzeContentQuality content
  match validateFormat content item with
  | .error e => .error e
  | .ok formatRes =>
    let densityRes := checkInformationDensity content
    let metadataRes := validateMetadata item
    let sourceRes := checkSourceReliability item
    let score := combinedScore lengthRes.2 dupRes.2 qualityRes.2 formatRes.2
      densityRes.2 metadataRes.2 sourceRes.2
    let issues := lengthRes.1 ++ dupRes.1 ++ qualityRes.1 ++ formatRes.1 ++
      densityRes.1 ++ metadataRes.1 ++ sourceRes.1
    let suggestions := generateSuggestions issues content item
    let quality_level := determineQualityLevel score
    let st' :=
      if quality_level ≠ QualityLevel.rejected then
        let contentHash := genContentHash content
        { contentHashes := setInsert contentHash st.contentHashes,
          contentFingerprints := dictSet content_id contentHash st.contentFingerprints }
      else st
    .ok ({ content_id := content_id,
           quality_level := quality_level,
           score := pyRound2 score,
           issues := issues,
           suggestions := suggestions,
           md_content_length := content.toList.length,
           md_word_count := (pyWords content).length,
           md_source := item.source.getD "unknown" }, st')

/-- `QualityController.validate_content_batch`: validate each item,
dropping the ones whose validation raised (the `asyncio.gather`
exception-isolation pattern).  The concurrent mutation of the shared dedup
state is modelled by sequential threading in submission order (the spec
itself flags the unsynchronized concurrent access as a data race). -/
def validateContentBatch (cfg : QCConfig) (items : List ContentItem)
    (st : DedupState) : List QualityReport × DedupState :=
  items.foldl
    (fun acc item =>
      match validateSingleContent cfg item acc.2 with
      | .ok (r, st') => (acc.1 ++ [r], st')
      | .error _ => acc)
    ([], st)

/-! ## validate_content -/

/-- The `ContentType` enum of the content processor. -/
inductive ContentType where
  | text | code | academic | technical | personal | reference | multimedia
deriving Repr, DecidableEq

/-- The `.value` strings of `ContentType`. -/
def ContentType.value : ContentType → String
  | .text => "text"
  | .code => "code"
  | .academic => "academic"
  | .technical => "technical"
  | .personal => "personal"
  | .reference => "reference"
  | .multimedia => "multimedia"

/-- The metadata dictionary attached to a `ProcessedContent`; each field
models one key read by the quality controller or the storage manager
(`none` = key absent). -/
structure PCMetadata where
  title : Option String := none
  source : Option String := none
  name : Option String := none
  path : Option String := none
  content_hash : Option String := none
  created_time : Option String := none
  modified_time : Option String := none
  collection_time : Option String := none
  word_count : Option Nat := none
  size : Option Nat := none
  language : Option String := none
deriving Repr, DecidableEq

/-- An entity dictionary `{text, label, start, end, description}`. -/
structure EntityDict where
  text : Option String := none
  label : Option String := none
  start : Option Nat := none
  stop : Option Nat := none
deriving Repr, DecidableEq

/-- A relationship dictionary `{type, target, strength, description}`. -/
structure RelationshipDict where
  rel_type : Option String := none
  target : Option String := none
  strength : Option ℚ := none
  description : Option String := none
deriving Repr, DecidableEq

/-- The `ProcessedContent` dataclass of the content processor. -/
structure ProcessedContent where
  content_id : String
  original_content : String
  processed_content : String
  content_type : ContentType
  keywords : List String
  entities : List EntityDict
  relationships : List RelationshipDict
  summary : String
  topics : List String
  quality_score : ℚ
  metadata : PCMetadata
deriving Repr, DecidableEq

/-- The `ValidationResult` returned by `validate_content`.  The source
declares two structurally different local classes (the success path carries
`quality_report`, the error path carries `error`); they are merged here
with `Option` fields, `none` standing for an absent attribute. -/
structure ValidationResult where
  approved : Bool
  is_valid : Bool
  quality_score : ℚ
  issues : List String
  suggestions : List String
  quality_report : Option QualityReport
  error : Option String
deriving Repr, DecidableEq

/-- The argument of `validate_content`: a `ProcessedContent` dataclass
object, a dictionary, or any other value (which has neither a
`processed_content` attribute nor a `get` method, so the dictionary branch
raises `AttributeError`). -/
inductive VCInput where
  | obj (pc : ProcessedContent) : VCInput
  | dict (item : ContentItem) : VCInput
  | other : VCInput
deriving Repr, DecidableEq

/-- The `try` body of `validate_content`: normalize the input into a
content-item dictionary (the keys `validate_single_content` does not read
are omitted) and validate it.  The constructed dictionary has no top-level
`source` or timestamp keys: the caller metadata goes under the nested
`metadata` key, which `validate_single_content` never reads. -/
def validateContentBody (cfg : QCConfig) (input : VCInput) (st : DedupState) :
    Except PyErr (ValidationResult × DedupState) :=
  let contentItem : Except PyErr ContentItem :=
    match input with
    | .obj pc =>
        .ok { content := some pc.processed_content,
              content_id := some pc.content_id }
    | .dict d =>
        .ok { content := some (pyOr (d.processed_content.getD "") (d.content.getD "")),
              content_id := some (d.content_id.getD "") }
    | .other => .error (.attributeMissing "get")
  match contentItem with
  | .error e => .error e
  | .ok item =>
    match validateSingleContent cfg item st with
    | .error e => .error e
    | .ok (report, st') =>
        .ok ({ approved := cfg.min_quality_score ≤ report.score,
               is_valid := cfg.min_quality_score ≤ report.score,
               quality_score := report.score,
               issues := report.issues,
               suggestions := report.suggestions,
               quality_report := some report,
               error := none }, st')

/-- `QualityController.validate_content`: the `try` body above wrapped in
the catch-all `except`, which returns the fallback result with
`approved = False` and `quality_score = 0.0` and leaves the dedup state
unchanged (the state mutation is the last step of the body, so a raising
body never mutated it). -/
def validateContent (cfg : QCConfig) (input : VCInput) (st : DedupState) :
    ValidationResult × DedupState :=
  match validateContentBody cfg input st with
  | .ok (r, st') => (r, st')
  | .error _ =>
      ({ approved := false,
         is_valid := false,
         quality_score := 0,
         issues := ["Validation error"],
         suggestions := ["Fix validation error and try again"],
         quality_report := none,
         error := some "validation error" }, st)

/-! ## Storage manager -/

/-- One row of the `content` table.  The `processing_time` column holds
`datetime.now()` and is not modelled. -/
structure ContentRow where
  id : String
  title : String
  content_type : String
  source : Option String
  file_path : String
  content_hash : Option String
  created_time : Option String
  modified_time : Option String
  collection_time : Option String
  quality_score : ℚ
  quality_level : String
  word_count : Nat
  size : Nat
  language : String
  metadata : PCMetadata
deriving Repr, DecidableEq

/-- One row of the `keywords` table. -/
structure KeywordRow where
  content_id : String
  keyword : String
  frequency : Nat
deriving Repr, DecidableEq

/-- One row of the `entities` table. -/
structure EntityRow where
  content_id : String
  entity_text : Option String
  entity_type : Option String
  start_pos : Nat
  end_pos : Nat
  confidence : ℚ
deriving Repr, DecidableEq

/-- One row of the `relationships` table. -/
structure RelationshipRow where
  content_id : String
  relationship_type : Option String
  target : Option String
  strength : ℚ
  description : Option String
deriving Repr, DecidableEq

/-- One row of the `topics` table. -/
structure TopicRow where
  content_id : String
  topic : String
  relevance : ℚ
deriving Repr, DecidableEq

/-- One row of the `quality_issues` table. -/
structure QualityIssueRow where
  content_id : String
  issue_type : String
  description : String
  severity : String
deriving Repr, DecidableEq

/-- The JSON content file written next to the database for each item. -/
structure ContentFileData where
  original_content : String
  processed_content : String
  summary : String
  metadata : PCMetadata
deriving Repr, DecidableEq

/-- The persistent storage state: the per-item JSON content files and the
SQLite tables touched by `store_processed_content`. -/
structure KnowledgeStore where
  contentFiles : List (String × ContentFileData) := []
  content : List ContentRow := []
  keywords : List KeywordRow := []
  entities : List EntityRow := []
  relationships : List RelationshipRow := []
  topics : List TopicRow := []
  qualityIssues : List QualityIssueRow := []
deriving Repr, DecidableEq

/-- File-system behaviour: which writes raise an `OSError`. -/
structure FsEnv where
  contentWriteFails : String → Bool := fun _ => false
  reportWriteFails : Bool := false

/-- A file system on which every write succeeds. -/
def fsAllOk : FsEnv := {}

/-- The values occurring in the dictionary returned by
`store_processed_content`. -/
inductive StorePyVal where
  | bool (b : Bool) : StorePyVal
  | str (s : String) : StorePyVal
  | strList (l : List String) : StorePyVal
  | nat (n : Nat) : StorePyVal
deriving Repr, DecidableEq

/-- The dictionary returned by `store_processed_content` (both branches
return a dictionary, despite the `-> bool` annotation). -/
def StoreDict : Type := List (String × StorePyVal)

/-- Python truthiness of a dictionary: nonempty. -/
def storeDictTruthy (d : StoreDict) : Bool :=
  !(List.isEmpty d)

/-- Dictionary key lookup. -/
def storeDictLookup (d : StoreDict) (k : String) : Option StorePyVal :=
  (List.find? (fun p => p.1 = k) d).map (fun p => p.2)

/-- The success dictionary of `store_processed_content` (`chunks` is the
topic list, `size_bytes` the UTF-8 length of the processed text). -/
def storeOkDict (pc : ProcessedContent) : StoreDict :=
  [("success", .bool true),
   ("content_id", .str pc.content_id),
   ("chunks", .strList pc.topics),
   ("size_bytes", .nat pc.processed_content.utf8ByteSize)]

/-- The failure dictionary of the `except` branch of
`store_processed_content` (the `error` value carries `str(e)`, modelled by
a fixed marker). -/
def storeErrorDict : StoreDict :=
  [("success", .bool false),
   ("error", .str "storage error"),
   ("chunks", .strList []),
   ("size_bytes", .nat 0)]

/-- The argument `store_processed_content` receives under the name
`quality_report`: the coordinator passes a `ValidationResult` on the
per-file paths and a `QualityReport` on the `_store_approved_content`
path; the function body duck-types it. -/
inductive PyReport where
  | validation (vr : ValidationResult) : PyReport
  | quality (qr : QualityReport) : PyReport
deriving Repr, DecidableEq

/-- Attribute access `quality_report.quality_score`: present on
`ValidationResult`, absent on `QualityReport` (whose field is `score`). -/
def PyReport.getQualityScore : PyReport → Except PyErr ℚ
  | .validation vr => .ok vr.quality_score
  | .quality _ => .error (.attributeMissing "quality_score")

/-- Attribute access `quality_report.quality_report`: present only on the
success-path `ValidationResult`. -/
def PyReport.getQualityReportAttr : PyReport → Except PyErr QualityReport
  | .validation vr =>
      match vr.quality_report with
      | some r => .ok r
      | none => .error (.attributeMissing "quality_report")
  | .quality _ => .error (.attributeMissing "quality_report")

/-- Attribute access `quality_report.issues`: present on both shapes. -/
def PyReport.issuesAttr : PyReport → List String
  | .validation vr => vr.issues
  | .quality qr => qr.issues

/-- The `content` row inserted by `store_processed_content` for
`processed_content`, given the evaluated `quality_report.quality_score`
and `quality_report.quality_report` attributes. -/
def contentRowOf (pc : ProcessedContent) (qs : ℚ) (rep : QualityReport) : ContentRow :=
  { id := pc.content_id,
    title := pc.metadata.title.getD "Untitled",
    content_type := pc.content_type.value,
    source := pc.metadata.source,
    file_path := pc.content_id ++ ".json",
    content_hash := pc.metadata.content_hash,
    created_time := pc.metadata.created_time,
    modified_time := pc.metadata.modified_time,
    collection_time := pc.metadata.collection_time,
    quality_score := qs,
    quality_level := rep.quality_level.value,
    word_count := pc.metadata.word_count.getD 0,
    size := pc.metadata.size.getD 0,
    language := pc.metadata.language.getD "unknown",
    metadata := pc.metadata }

/-- The `keywords` rows inserted for `processed_content`. -/
def keywordRowsOf (pc : ProcessedContent) : List KeywordRow :=
  pc.keywords.map (fun k => { content_id := pc.content_id, keyword := k, frequency := 1 })

/-- The `entities` rows inserted for `processed_content`. -/
def entityRowsOf (pc : ProcessedContent) : List EntityRow :=
  pc.entities.map (fun e =>
    { content_id := pc.content_id, entity_text := e.text, entity_type := e.label,
      start_pos := e.start.getD 0, end_pos := e.stop.getD 0, confidence := 1 })

/-- The `relationships` rows inserted for `processed_content`. -/
def relationshipRowsOf (pc : ProcessedContent) : List RelationshipRow :=
  pc.relationships.map (fun r =>
    { content_id := pc.content_id, relationship_type := r.rel_type, target := r.target,
      strength := r.strength.getD (1 / 2), description := r.description })

/-- The `topics` rows inserted for `processed_content`. -/
def topicRowsOf (pc : ProcessedContent) : List TopicRow :=
  pc.topics.map (fun t => { content_id := pc.content_id, topic := t, relevance := 1 })

/-- The `quality_issues` rows inserted for `processed_content`. -/
def qualityIssueRowsOf (pc : ProcessedContent) (issues : List String) : List QualityIssueRow :=
  issues.map (fun i =>
    { content_id := pc.content_id, issue_type := "general", description := i,
      severity := "medium" })

/-- `StorageManager.store_processed_content`.  The `try` body writes the
JSON content file, then runs the database transaction: `INSERT OR REPLACE`
into `content` (whose parameter tuple evaluates
`quality_report.quality_score` and then
`quality_report.quality_report.quality_level`, raising `AttributeError`
when the argument is a plain `QualityReport`), `DELETE` of all child rows
for the id, and the child `INSERT`s, committed atomically.  Any exception
is caught and the failure dictionary returned; the database is then
unchanged (no commit happened) but an already written content file
persists. -/
def storeProcessedContent (fs : FsEnv) (pc : ProcessedContent) (report : PyReport)
    (st : KnowledgeStore) : StoreDict × KnowledgeStore :=
  if fs.contentWriteFails pc.content_id then
    (storeErrorDict, st)
  else
    let fileData : ContentFileData :=
      { original_content := pc.original_content,
        processed_content := pc.processed_content,
        summary := pc.summary,
        metadata := pc.metadata }
    let st1 := { st with contentFiles :=
      (pc.content_id, fileData) :: st.contentFiles.filter (fun p => p.1 ≠ pc.content_id) }
    match report.getQualityScore with
    | .error _ => (storeErrorDict, st1)
    | .ok qs =>
      match report.getQualityReportAttr with
      | .error _ => (storeErrorDict, st1)
      | .ok rep =>
        let cid := pc.content_id
        let st2 : KnowledgeStore :=
          { contentFiles := st1.contentFiles,
            content := contentRowOf pc qs rep :: st1.content.filter (fun r => r.id ≠ cid),
            keywords := st1.keywords.filter (fun r => r.content_id ≠ cid) ++ keywordRowsOf pc,
            entities := st1.entities.filter (fun r => r.content_id ≠ cid) ++ entityRowsOf pc,
            relationships :=
              st1.relationships.filter (fun r => r.content_id ≠ cid) ++ relationshipRowsOf pc,
            topics := st1.topics.filter (fun r => r.content_id ≠ cid) ++ topicRowsOf pc,
            qualityIssues := st1.qualityIssues.filter (fun r => r.content_id ≠ cid) ++
              qualityIssueRowsOf pc report.issuesAttr }
        (storeOkDict pc, st2)

/-! ## Ingestion coordinator -/

/-- The quality-map built by `_filter_by_quality` and
`_store_approved_content`: a Python dict comprehension keyed by
`report.content_id`, so a later report with the same id overwrites an
earlier one. -/
def qmLookup (reports : List QualityReport) (cid : String) : Option QualityReport :=
  reports.foldl (fun acc r => if r.content_id = cid then some r else acc) none

/-- `IngestionCoordinator._filter_by_quality`: keep the content items whose
mapped quality report exists and is not REJECTED. -/
def filterByQuality (processed : List ProcessedContent) (reports : List QualityReport) :
    List ProcessedContent :=
  processed.filter (fun c =>
    match qmLookup reports c.content_id with
    | some r => r.quality_level ≠ QualityLevel.rejected
    | none => false)

/-- The result of `_store_approved_content`: the returned stored count, the
errors it appended to the pipeline error list, the final storage state, and
(model instrumentation) the trace of content items on which
`store_processed_content` was invoked. -/
structure StoreApprovedResult where
  storedCount : Nat
  errors : List String
  store : KnowledgeStore
  invoked : List ProcessedContent
deriving Repr, DecidableEq

/-- Loop of `_store_approved_content`.  `success` receives the dictionary
returned by `store_processed_content` and is tested for Python truthiness
(`if success:`); the surrounding `except` would append to the error list,
but `store_processed_content` catches all its exceptions internally and
never raises, so that branch is unreachable and `errors` is only carried
through. -/
def storeApprovedAux (fs : FsEnv) (reports : List QualityReport) :
    List ProcessedContent → StoreApprovedResult → StoreApprovedResult
  | [], acc => acc
  | c :: rest, acc =>
      match qmLookup reports c.content_id with
      | some qr =>
          let r := storeProcessedContent fs c (PyReport.quality qr) acc.store
          let cnt :=
            if storeDictTruthy r.1 then acc.storedCount + 1 else acc.storedCount
          storeApprovedAux fs reports rest
            { storedCount := cnt, errors := acc.errors, store := r.2,
              invoked := acc.invoked ++ [c] }
      | none => storeApprovedAux fs reports rest acc

/-- `IngestionCoordinator._store_approved_content`. -/
def storeApprovedContent (fs : FsEnv) (approved : List ProcessedContent)
    (reports : List QualityReport) (st : KnowledgeStore) : StoreApprovedResult :=
  storeApprovedAux fs reports approved
    { storedCount := 0, errors := [], store := st, invoked := [] }

/-- The pipeline statistics dictionary of the coordinator.  `start_time`
and `end_time` hold wall-clock strings in the source and are modelled as
"has been set" flags. -/
structure PipelineStats where
  start_time : Bool := false
  end_time : Bool := false
  total_collected : Nat := 0
  total_processed : Nat := 0
  total_stored : Nat := 0
  total_rejected : Nat := 0
  collection_stats : List (String × Nat) := []
  quality_stats : List (String × Nat) := []
  errors : List String := []
deriving Repr, DecidableEq

/-- The statistics dictionary as initialized in
`IngestionCoordinator.__init__`. -/
def initialStats : PipelineStats := {}

/-- The processing configuration keys the coordinator reads. -/
structure ProcessingConfig where
  batch_size : Nat := 10
deriving Repr, DecidableEq

/-- External behaviour of one full-ingestion run: the per-source collector
outcomes handed back by `asyncio.gather(..., return_exceptions=True)`, the
content processor's outcome on each batch, and the file system. -/
structure IngestionEnv where
  collectorResults : List (String × Except String (List ContentItem)) := []
  processBatchResult : List ContentItem → Except String (List ProcessedContent) :=
    fun _ => .ok []
  fs : FsEnv := {}

/-- `IngestionCoordinator._collect_all_content`: merge the per-source
gather results, counting each successful source and turning each failed
source into an error-list entry (the exception-isolation pattern). -/
def collectAllContent (env : IngestionEnv) (stats : PipelineStats) :
    List ContentItem × PipelineStats :=
  env.collectorResults.foldl
    (fun acc sr =>
      match sr.2 with
      | .ok items =>
          (acc.1 ++ items,
           { acc.2 with
             collection_stats := acc.2.collection_stats ++ [(sr.1, items.length)] })
      | .error e =>
          (acc.1,
           { acc.2 with
             errors := acc.2.errors ++ [sr.1 ++ ": " ++ e],
             collection_stats := acc.2.collection_stats ++ [(sr.1, 0)] }))
    ([], stats)

/-- Split a list into chunks of `n` (the coordinator's
`range(0, len(content_items), batch_size)` loop), with explicit fuel for
kernel reduction. -/
def chunkListAux {α : Type} (n : Nat) : Nat → List α → List (List α)
  | _, [] => []
  | 0, s => [s]
  | fuel + 1, s => s.take n :: chunkListAux n fuel (s.drop n)

/-- The batches processed by `_process_content_batch`. -/
def chunkList {α : Type} (n : Nat) (s : List α) : List (List α) :=
  chunkListAux n s.length s

/-- `IngestionCoordinator._process_content_batch`: per-batch exception
isolation; a failing batch contributes an error-list entry and no items. -/
def processContentBatch (env : IngestionEnv) (pCfg : ProcessingConfig)
    (items : List ContentItem) (stats : PipelineStats) :
    List ProcessedContent × PipelineStats :=
  (chunkList pCfg.batch_size items).foldl
    (fun acc batch =>
      match env.processBatchResult batch with
      | .ok rs => (acc.1 ++ rs, acc.2)
      | .error e =>
          (acc.1, { acc.2 with errors := acc.2.errors ++ ["Processing batch: " ++ e] }))
    ([], stats)

/-- The dictionary `{'id': item.content_id, 'content':
item.processed_content, **item.metadata}` built by
`_validate_content_quality` for each processed item. -/
def toValidationItem (pc : ProcessedContent) : ContentItem :=
  { id := some pc.content_id,
    content := some pc.processed_content,
    source := pc.metadata.source,
    name := pc.metadata.name,
    title := pc.metadata.title,
    path := pc.metadata.path,
    created_time := pc.metadata.created_time,
    modified_time := pc.metadata.modified_time,
    collection_time := pc.metadata.collection_time }

/-- The per-level counts accumulated into `stats['quality_stats']`. -/
def countLevels (reports : List QualityReport) : List (String × Nat) :=
  reports.foldl
    (fun acc r =>
      let lv := r.quality_level.value
      if acc.any (fun p => p.1 = lv) then
        acc.map (fun p => if p.1 = lv then (p.1, p.2 + 1) else p)
      else acc ++ [(lv, 1)])
    []

/-- `IngestionCoordinator._validate_content_quality`.  The surrounding
`try/except` never fires in the model because `validate_content_batch`
already isolates per-item exceptions. -/
def validateContentQuality (cfg : QCConfig) (processed : List ProcessedContent)
    (stats : PipelineStats) (st : DedupState) :
    List QualityReport × PipelineStats × DedupState :=
  let r := validateContentBatch cfg (processed.map toValidationItem) st
  (r.1, { stats with quality_stats := countLevels r.1 }, r.2)

/-- The `try` body of `run_full_ingestion` (lines 153-184): the four phases
followed by setting `end_time` and writing the ingestion report.  The only
step of the body that can raise in the model is the report write (every
phase isolates its own failures); an error carries the statistics and
state at the point of the raise. -/
def runFullIngestionBody (env : IngestionEnv) (qcCfg : QCConfig) (pCfg : ProcessingConfig)
    (stats0 : PipelineStats) (store0 : KnowledgeStore) (dedup0 : DedupState) :
    Except (PipelineStats × KnowledgeStore × DedupState × String)
      (PipelineStats × KnowledgeStore × DedupState) :=
  let c := collectAllContent env stats0
  let stats1 := { c.2 with total_collected := c.1.length }
  let p := processContentBatch env pCfg c.1 stats1
  let stats2 := { p.2 with total_processed := p.1.length }
  let v := validateContentQuality qcCfg p.1 stats2 dedup0
  let approved := filterByQuality p.1 v.1
  let stats3 := { v.2.1 with total_rejected := p.1.length - approved.length }
  let s := storeApprovedContent env.fs approved v.1 store0
  let stats4 := { stats3 with
    total_stored := s.storedCount,
    errors := stats3.errors ++ s.errors }
  let stats5 := { stats4 with end_time := true }
  if env.fs.reportWriteFails then
    .error (stats5, s.store, v.2.2, "Ingestion report write failed")
  else
    .ok (stats5, s.store, v.2.2)

/-- `IngestionCoordinator.run_full_ingestion`: the body wrapped in the
catch-all `except`, which appends the exception text to the error list,
sets `end_time`, and returns the statistics instead of raising. -/
def runFullIngestion (env : IngestionEnv) (qcCfg : QCConfig) (pCfg : ProcessingConfig)
    (store0 : KnowledgeStore) (dedup0 : DedupState) :
    PipelineStats × KnowledgeStore × DedupState :=
  let stats0 := { initialStats with start_time := true }
  match runFullIngestionBody env qcCfg pCfg stats0 store0 dedup0 with
  | .ok r => r
  | .error (st, store, dedup, e) =>
      ({ st with errors := st.errors ++ [e], end_time := true }, store, dedup)

/-- `StorageManager` defines the methods `store_processed_content`,
`retrieve_content`, `search_content`, `get_content_statistics`,
`create_collection`, `add_to_collection`, `export_content`,
`cleanup_storage`, `search_similar`, `get_stats`, `list_collections` and
`health_check` — and no `delete_collection`.  The coordinator's call
`self.storage_manager.delete_collection(...)` therefore looks up a missing
attribute; this definition models that lookup. -/
def storageManagerDeleteCollectionMethod : Option (String → Option String → Bool) :=
  none

/-- `IngestionCoordinator.delete_collection`: call the storage manager's
`delete_collection` and return its result; the `except` branch logs the
exception and re-raises it.  Since `StorageManager` has no
`delete_collection` method, the attribute lookup raises `AttributeError`
inside the `try`, which is then re-raised. -/
def coordinatorDeleteCollection (collection_name : String) (user_id : Option String) :
    Except PyErr Bool :=
  match storageManagerDeleteCollectionMethod with
  | some f => .ok (f collection_name user_id)
  | none => .error (.attributeMissing "delete_collection")

/-! ## Concrete inputs used by witnesses and counterexamples -/

-- A decidable equality for `Except`, used to state concrete evaluations.
deriving instance DecidableEq for Except

/-- A minimal content item (a two-character note with no metadata). -/
def wItemShort : ContentItem := { content := some "hi" }

/-- The report `validate_single_content` produces for `wItemShort` on a
fresh controller. -/
def wReportShort : QualityReport :=
  { content_id := "",
    quality_level := QualityLevel.rejected,
    score := 1,
    issues := ["Content too short", "Content could be more informative",
               "Missing required metadata: source",
               "Missing required metadata: collection_time",
               "Missing recommended metadata"],
    suggestions := ["Consider combining with related content or adding more context"],
    md_content_length := 2,
    md_word_count := 1,
    md_source := "unknown" }

/-- A 59-character item whose words are separated by triple spaces, so its
stripped length passes the minimum-length gate while its
whitespace-normalized form is only 43 characters long. -/
def wItemFirst : ContentItem :=
  { id := some "a",
    content := some "the   quick   brown   fox   jumps   over   the   lazy   dog" }

/-- The single-spaced normalization of `wItemFirst`: a distinct item whose
normalized text (and hence duplicate-detection hash) coincides with
`wItemFirst`, but whose stripped length is below the 50-character
minimum. -/
def wItemDup : ContentItem :=
  { id := some "b",
    content := some "the quick brown fox jumps over the lazy dog" }

/-- The report produced for `wItemFirst` on a fresh controller. -/
def wReportFirst : QualityReport :=
  { content_id := "a",
    quality_level := QualityLevel.good,
    score := 6,
    issues := ["Content is quite short, may lack detail",
               "Content could be more informative",
               "Missing required metadata: source",
               "Missing required metadata: collection_time",
               "Missing recommended metadata"],
    suggestions := [],
    md_content_length := 59,
    md_word_count := 9,
    md_source := "unknown" }

/-- The dedup state after validating `wItemFirst` on a fresh controller. -/
def wDedupFirst : DedupState :=
  { contentHashes := ["the quick brown fox jumps over the lazy dog"],
    contentFingerprints := [("a", "the quick brown fox jumps over the lazy dog")] }

/-- A small processed-content value for the storage witnesses. -/
def wPc1 : ProcessedContent :=
  { content_id := "c1",
    original_content := "orig",
    processed_content := "proc",
    content_type := ContentType.text,
    keywords := ["k1", "k2"],
    entities := [{ text := some "e1" }],
    relationships := [{ rel_type := some "tag" }],
    summary := "sum",
    topics := ["t1"],
    quality_score := 5,
    metadata := {} }

/-- A second version of the same content id with different child facets. -/
def wPc2 : ProcessedContent :=
  { wPc1 with keywords := ["k3"], topics := ["t2", "t3"] }

/-- A quality report for the storage witnesses. -/
def wQualityReport : QualityReport :=
  { content_id := "c1", quality_level := QualityLevel.good, score := 6,
    issues := ["iss"], suggestions := [], md_content_length := 4,
    md_word_count := 1, md_source := "unknown" }

/-- A success-path `ValidationResult` wrapping `wQualityReport`. -/
def wValidation : ValidationResult :=
  { approved := true, is_valid := true, quality_score := 6, issues := ["iss"],
    suggestions := [], quality_report := some wQualityReport, error := none }

/-- An ingestion environment with no sources whose report write raises. -/
def wEnvReportFail : IngestionEnv :=
  { fs := { reportWriteFails := true } }

/-! # Theorems -/

/-! ## Helper lemmas: dimension-score bounds -/

theorem validateContentLength_bounds (cfg : QCConfig) (c : String) :
    1 ≤ (validateContentLength cfg c).2 ∧ (validateContentLength cfg c).2 ≤ 10 := by
  unfold validateContentLength
  dsimp only
  split_ifs <;> norm_num

theorem checkDuplicates_bounds (cfg : QCConfig) (c cid : String) (st : DedupState) :
    0 ≤ (checkDuplicates cfg c cid st).2 ∧ (checkDuplicates cfg c cid st).2 ≤ 10 := by
  unfold checkDuplicates
  dsimp only
  split_ifs <;> norm_num

theorem analyzeContentQuality_bounds (c : String) :
    0 ≤ (analyzeContentQuality c).2 ∧ (analyzeContentQuality c).2 ≤ 10 := by
  unfold analyzeContentQuality
  dsimp only
  split_ifs <;> norm_num [min_def] <;> split_ifs <;> norm_num

theorem validateFormat_bounds (c : String) (item : ContentItem) (iss : List String)
    (sc : ℚ) (h : validateFormat c item = .ok (iss, sc)) : 0 ≤ sc ∧ sc ≤ 10 := by
  unfold validateFormat at h
  dsimp only at h
  split_ifs at h <;>
    simp only [Except.ok.injEq, Prod.mk.injEq, reduceCtorEq] at h <;>
    (try obtain ⟨-, rfl⟩ := h) <;> norm_num [min_def] <;> split_ifs <;> norm_num

theorem checkInformationDensity_bounds (c : String) :
    0 ≤ (checkInformationDensity c).2 ∧ (checkInformationDensity c).2 ≤ 10 := by
  unfold checkInformationDensity
  dsimp only
  split_ifs <;> norm_num [min_def] <;> split_ifs <;> norm_num

theorem validateMetadata_bounds (item : ContentItem) :
    0 ≤ (validateMetadata item).2 ∧ (validateMetadata item).2 ≤ 10 := by
  unfold validateMetadata
  dsimp only
  split_ifs <;> norm_num [min_def] <;> split_ifs <;> norm_num

theorem checkSourceReliability_bounds (item : ContentItem) :
    0 ≤ (checkSourceReliability item).2 ∧ (checkSourceReliability item).2 ≤ 10 := by
  unfold checkSourceReliability
  dsimp only
  split_ifs <;> norm_num [min_def] <;> split_ifs <;> norm_num

/-! ## Helper lemmas: score combination and rounding -/

theorem combinedScore_le_penalties (l d q f dn m s : ℚ) :
    combinedScore l d q f dn m s ≤ l + d - 10 := by
  unfold combinedScore
  dsimp only
  calc min (min (min (min (min (10 - (10 - l) - (10 - d)) q) f) dn) m) s ≤
      10 - (10 - l) - (10 - d) :=
        le_trans (min_le_left _ _) (le_trans (min_le_left _ _)
          (le_trans (min_le_left _ _) (le_trans (min_le_left _ _) (min_le_left _ _))))
    _ = l + d - 10 := by ring

theorem combinedScore_bounds (l d q f dn m s : ℚ) (hl1 : 1 ≤ l) (hl : l ≤ 10)
    (hd0 : 0 ≤ d) (hd : d ≤ 10) (hq : 0 ≤ q) (hf : 0 ≤ f) (hdn : 0 ≤ dn)
    (hm : 0 ≤ m) (hs : 0 ≤ s) :
    -9 ≤ combinedScore l d q f dn m s ∧ combinedScore l d q f dn m s ≤ 10 := by
  constructor
  · unfold combinedScore
    dsimp only
    simp only [le_min_iff]
    refine ⟨⟨⟨⟨⟨?_, ?_⟩, ?_⟩, ?_⟩, ?_⟩, ?_⟩ <;> linarith
  · have := combinedScore_le_penalties l d q f dn m s
    linarith

theorem pyRound2_mono {a b : ℚ} (h : a ≤ b) : pyRound2 a ≤ pyRound2 b := by
  unfold pyRound2
  have h2 : round (a * 100) ≤ round (b * 100) := by
    rw [round_eq, round_eq]
    exact Int.floor_le_floor (by linarith)
  have h3 : ((round (a * 100) : ℤ) : ℚ) ≤ ((round (b * 100) : ℤ) : ℚ) := by
    exact_mod_cast h2
  linarith

theorem pyRound2_intCast (n : ℤ) : pyRound2 ((n : ℚ)) = n := by
  unfold pyRound2
  rw [show ((n : ℚ) * 100) = (((n * 100 : ℤ) : ℚ)) by push_cast; ring, round_intCast]
  push_cast
  field_simp

theorem pyRound2_bounds {q : ℚ} (h1 : -9 ≤ q) (h2 : q ≤ 10) :
    -9 ≤ pyRound2 q ∧ pyRound2 q ≤ 10 := by
  constructor
  · have hm := pyRound2_mono h1
    rw [show ((-9 : ℚ)) = (((-9 : ℤ) : ℚ)) by norm_num, pyRound2_intCast] at hm
    exact le_trans (by norm_num) hm
  · have hm := pyRound2_mono h2
    rw [show ((10 : ℚ)) = (((10 : ℤ) : ℚ)) by norm_num, pyRound2_intCast] at hm
    exact le_trans hm (by norm_num)

theorem determineQualityLevel_of_lt_two {s : ℚ} (h : s < 2) :
    determineQualityLevel s = QualityLevel.rejected := by
  unfold determineQualityLevel
  split_ifs <;> first | rfl | linarith

/-! ## Helper lemmas: structure of validate_single_content -/

theorem validateSingleContent_spec (cfg : QCConfig) (item : ContentItem) (st : DedupState)
    (r : QualityReport) (st' : DedupState)
    (h : validateSingleContent cfg item st = .ok (r, st')) :
    ∃ fmt, validateFormat (resolvedContent item) item = .ok fmt ∧
      r.score = pyRound2 (combinedScore
        (validateContentLength cfg (resolvedContent item)).2
        (checkDuplicates cfg (resolvedContent item) (resolvedId item) st).2
        (analyzeContentQuality (resolvedContent item)).2
        fmt.2
        (checkInformationDensity (resolvedContent item)).2
        (validateMetadata item).2
        (checkSourceReliability item).2) ∧
      r.quality_level = determineQualityLevel (combinedScore
        (validateContentLength cfg (resolvedContent item)).2
        (checkDuplicates cfg (resolvedContent item) (resolvedId item) st).2
        (analyzeContentQuality (resolvedContent item)).2
        fmt.2
        (checkInformationDensity (resolvedContent item)).2
        (validateMetadata item).2
        (checkSourceReliability item).2) ∧
      (r.quality_level ≠ QualityLevel.rejected →
        st' = { contentHashes :=
                  setInsert (genContentHash (resolvedContent item)) st.contentHashes,
                contentFingerprints :=
                  dictSet (resolvedId item) (genContentHash (resolvedContent item))
                    st.contentFingerprints }) ∧
      (r.quality_level = QualityLevel.rejected → st' = st) := by
  unfold validateSingleContent at h
  dsimp only at h
  cases hf : validateFormat (resolvedContent item) item with
  | error e => rw [hf] at h; exact absurd h (by simp)
  | ok fmt =>
      rw [hf] at h
      refine ⟨fmt, rfl, ?_⟩
      simp only [Except.ok.injEq, Prod.mk.injEq] at h
      obtain ⟨hr, hs⟩ := h
      subst hr
      refine ⟨rfl, rfl, ?_, ?_⟩
      · intro hne
        simp only [ne_eq] at hne
        rw [← hs]
        simp only [ne_eq]
        rw [if_pos hne]
      · intro heq
        simp only at heq
        rw [← hs]
        rw [if_neg (by simp [heq])]

theorem setInsert_mem (x y : String) (l : List String) (h : x ∈ l) :
    x ∈ setInsert y l := by
  unfold setInsert
  split_ifs <;> simp [h]

theorem setInsert_self_mem (x : String) (l : List String) : x ∈ setInsert x l := by
  unfold setInsert
  split_ifs with h <;> simp [h]

/-! ## Helper lemmas: the store-approved loop -/

theorem storeApprovedAux_invoked (fs : FsEnv) (reports : List QualityReport)
    (l : List ProcessedContent) (acc : StoreApprovedResult) :
    (storeApprovedAux fs reports l acc).invoked =
      acc.invoked ++ l.filter (fun c => (qmLookup reports c.content_id).isSome) := by
  induction l generalizing acc with
  | nil => simp [storeApprovedAux]
  | cons c rest ih =>
      unfold storeApprovedAux
      cases hq : qmLookup reports c.content_id with
      | some qr =>
          dsimp only
          rw [ih]
          simp [List.filter_cons, hq]
      | none =>
          dsimp only
          rw [ih]
          simp [List.filter_cons, hq]

/-! ## Helper lemmas: upsert filters -/

theorem filter_erase_then_keep {α : Type} (key : α → String) (cid : String)
    (l : List α) :
    (l.filter (fun a => key a ≠ cid)).filter (fun a => key a = cid) = [] := by
  induction l with
  | nil => rfl
  | cons a rest ih =>
      by_cases h : key a = cid <;> simp [List.filter_cons, h, ih]

theorem filter_upsert_append {α : Type} (key : α → String) (cid : String)
    (l new : List α) (hnew : ∀ a ∈ new, key a = cid) :
    ((l.filter (fun a => key a ≠ cid)) ++ new).filter (fun a => key a = cid) = new := by
  rw [List.filter_append, filter_erase_then_keep]
  simp only [List.nil_append]
  exact List.filter_eq_self.mpr (fun a ha => by simp [hnew a ha])

theorem filter_upsert_cons {α : Type} (key : α → String) (cid : String)
    (row : α) (l : List α) (hrow : key row = cid) :
    ((row :: l.filter (fun a => key a ≠ cid)).filter (fun a => key a = cid)) = [row] := by
  simp only [List.filter_cons, hrow]
  simp [filter_erase_then_keep]

theorem keywordRowsOf_key (pc : ProcessedContent) :
    ∀ a ∈ keywordRowsOf pc, a.content_id = pc.content_id := by
  intro a ha
  unfold keywordRowsOf at ha
  obtain ⟨k, -, rfl⟩ := List.mem_map.mp ha
  rfl

theorem entityRowsOf_key (pc : ProcessedContent) :
    ∀ a ∈ entityRowsOf pc, a.content_id = pc.content_id := by
  intro a ha
  unfold entityRowsOf at ha
  obtain ⟨k, -, rfl⟩ := List.mem_map.mp ha
  rfl

theorem relationshipRowsOf_key (pc : ProcessedContent) :
    ∀ a ∈ relationshipRowsOf pc, a.content_id = pc.content_id := by
  intro a ha
  unfold relationshipRowsOf at ha
  obtain ⟨k, -, rfl⟩ := List.mem_map.mp ha
  rfl

theorem topicRowsOf_key (pc : ProcessedContent) :
    ∀ a ∈ topicRowsOf pc, a.content_id = pc.content_id := by
  intro a ha
  unfold topicRowsOf at ha
  obtain ⟨k, -, rfl⟩ := List.mem_map.mp ha
  rfl

theorem qualityIssueRowsOf_key (pc : ProcessedContent) (issues : List String) :
    ∀ a ∈ qualityIssueRowsOf pc issues, a.content_id = pc.content_id := by
  intro a ha
  unfold qualityIssueRowsOf at ha
  obtain ⟨k, -, rfl⟩ := List.mem_map.mp ha
  rfl

theorem storeProcessedContent_ok (fs : FsEnv) (pc : ProcessedContent)
    (vr : ValidationResult) (rep : QualityReport) (st : KnowledgeStore)
    (hw : fs.contentWriteFails pc.content_id = false)
    (hrep : vr.quality_report = some rep) :
    storeProcessedContent fs pc (PyReport.validation vr) st =
      (storeOkDict pc,
       { contentFiles := (pc.content_id,
           { original_content := pc.original_content,
             processed_content := pc.processed_content,
             summary := pc.summary,
             metadata := pc.metadata }) ::
           st.contentFiles.filter (fun p => p.1 ≠ pc.content_id),
         content := contentRowOf pc vr.quality_score rep ::
           st.content.filter (fun r => r.id ≠ pc.content_id),
         keywords := st.keywords.filter (fun r => r.content_id ≠ pc.content_id) ++
           keywordRowsOf pc,
         entities := st.entities.filter (fun r => r.content_id ≠ pc.content_id) ++
           entityRowsOf pc,
         relationships :=
           st.relationships.filter (fun r => r.content_id ≠ pc.content_id) ++
             relationshipRowsOf pc,
         topics := st.topics.filter (fun r => r.content_id ≠ pc.content_id) ++
           topicRowsOf pc,
         qualityIssues :=
           st.qualityIssues.filter (fun r => r.content_id ≠ pc.content_id) ++
             qualityIssueRowsOf pc vr.issues }) := by
  unfold storeProcessedContent
  rw [hw]
  simp only [Bool.false_eq_true, if_false]
  simp [PyReport.getQualityScore, PyReport.getQualityReportAttr, PyReport.issuesAttr, hrep]

/-! ## Claim theorems -/

/-- C1: every `ProcessedContent` whose quality report (the one the
coordinator's quality map associates to its `content_id`) has level
REJECTED is excluded from the approved set by `_filter_by_quality`, and
`_store_approved_content`, run on that approved set, never invokes
`store_processed_content` on it — so rejected content is never
persisted. -/
theorem C1_rejected_content_never_stored (fs : FsEnv)
    (processed : List ProcessedContent) (reports : List QualityReport)
    (st : KnowledgeStore) (c : ProcessedContent) (r : QualityReport)
    (hmap : qmLookup reports c.content_id = some r)
    (hrej : r.quality_level = QualityLevel.rejected) :
    c ∉ filterByQuality processed reports ∧
    c ∉ (storeApprovedContent fs (filterByQuality processed reports) reports st).invoked := by
  have hnotin : c ∉ filterByQuality processed reports := by
    intro hc
    unfold filterByQuality at hc
    rw [List.mem_filter] at hc
    rcases hc with ⟨-, hpred⟩
    rw [hmap] at hpred
    simp [hrej] at hpred
  refine ⟨hnotin, ?_⟩
  intro hc
  unfold storeApprovedContent at hc
  rw [storeApprovedAux_invoked] at hc
  simp only [List.nil_append] at hc
  exact hnotin (List.mem_of_mem_filter hc)

/-- C1 witness: a concrete rejected report and content item, excluded from
the filtered set and from the trace of storage invocations. -/
theorem C1_witness :
    qmLookup [{ wReportShort with content_id := "c1" }] wPc1.content_id =
      some { wReportShort with content_id := "c1" } ∧
    ({ wReportShort with content_id := "c1" } : QualityReport).quality_level =
      QualityLevel.rejected ∧
    (wPc1 ∉ filterByQuality [wPc1] [{ wReportShort with content_id := "c1" }] ∧
     wPc1 ∉ (storeApprovedContent fsAllOk
        (filterByQuality [wPc1] [{ wReportShort with content_id := "c1" }])
        [{ wReportShort with content_id := "c1" }] {}).invoked) :=
  ⟨by decide, by decide,
   C1_rejected_content_never_stored fsAllOk [wPc1]
     [{ wReportShort with content_id := "c1" }] {} wPc1
     { wReportShort with content_id := "c1" } (by decide) (by decide)⟩

/-- C2: `_determine_quality_level` is a pure function of the score given by
exactly the fixed thresholds 8/6/4/2 (EXCELLENT at 8 and above, GOOD at 6,
ACCEPTABLE at 4, POOR at 2, REJECTED below 2), and it is monotone for the
ordering REJECTED < POOR < ACCEPTABLE < GOOD < EXCELLENT. -/
theorem C2_quality_level_thresholds_and_monotone :
    (forall s : ℚ,
      (determineQualityLevel s = QualityLevel.excellent ↔ 8 ≤ s) ∧
      (determineQualityLevel s = QualityLevel.good ↔ 6 ≤ s ∧ s < 8) ∧
      (determineQualityLevel s = QualityLevel.acceptable ↔ 4 ≤ s ∧ s < 6) ∧
      (determineQualityLevel s = QualityLevel.poor ↔ 2 ≤ s ∧ s < 4) ∧
      (determineQualityLevel s = QualityLevel.rejected ↔ s < 2)) ∧
    (forall s1 s2 : ℚ, s1 < s2 →
      (determineQualityLevel s1).rank ≤ (determineQualityLevel s2).rank) := by
  constructor
  · intro s
    unfold determineQualityLevel
    split_ifs with h1 h2 h3 h4 <;>
      (try simp_all [not_le]) <;>
      (repeat' constructor) <;>
      first
        | linarith
        | (rintro ⟨ha, hb⟩; linarith)
        | (intro ha; linarith)
  · intro s1 s2 hlt
    unfold determineQualityLevel
    split_ifs <;> simp only [QualityLevel.rank] <;>
      first
        | omega
        | (exfalso; simp only [not_le] at *; linarith)
        | (exfalso; linarith)

/-- C2 witness: threshold characterization at score 5 and monotonicity
between scores 1 and 3. -/
theorem C2_witness :
    (determineQualityLevel 5 = QualityLevel.acceptable ↔ 4 ≤ (5 : ℚ) ∧ (5 : ℚ) < 6) ∧
    (determineQualityLevel 1).rank ≤ (determineQualityLevel 3).rank :=
  ⟨(C2_quality_level_thresholds_and_monotone.1 5).2.2.1,
   C2_quality_level_thresholds_and_monotone.2 1 3 (by norm_num)⟩

set_option maxRecDepth 8000 in
unseal Rat.add Rat.sub Rat.mul Rat.inv in
/-- C3 counterexample: the claim "the returned score lies in [0, 10]" fails
on the code.  Starting from a fresh controller, validating `wItemFirst`
yields a non-REJECTED report (level GOOD, so its normalized-content hash
enters the dedup set), and then validating `wItemDup` — whose stripped
length is below the minimum and whose normalized content is an exact
duplicate — returns a report with score -9 < 0: the length penalty (9) and
the duplication penalty (10) are both subtracted from 10. -/
theorem C3_counterexample :
    (validateSingleContent {} wItemFirst {}).map (fun p => p.1.quality_level) =
      Except.ok QualityLevel.good ∧
    ((validateSingleContent {} wItemFirst {}).bind (fun p =>
        validateSingleContent {} wItemDup p.2)).toOption.map
      (fun p => (p.1.score, decide (p.1.score < 0))) =
    some (-9, true) := by
  constructor
  · decide
  · decide

/-- C3 amended: the combined score of every report returned by
`validate_single_content` lies in [-9, 10] (not [0, 10]: the two
subtractive penalties can drive it to -9, while 10 remains the maximum). -/
theorem C3_amended_score_range (cfg : QCConfig) (item : ContentItem)
    (st : DedupState) (r : QualityReport) (st' : DedupState)
    (h : validateSingleContent cfg item st = .ok (r, st')) :
    -9 ≤ r.score ∧ r.score ≤ 10 := by
  obtain ⟨fmt, hfmt, hscore, -⟩ := validateSingleContent_spec cfg item st r st' h
  rw [hscore]
  have hlen := validateContentLength_bounds cfg (resolvedContent item)
  have hdup := checkDuplicates_bounds cfg (resolvedContent item) (resolvedId item) st
  have hq := analyzeContentQuality_bounds (resolvedContent item)
  have hf := validateFormat_bounds (resolvedContent item) item fmt.1 fmt.2
    (by rw [hfmt])
  have hdn := checkInformationDensity_bounds (resolvedContent item)
  have hm := validateMetadata_bounds item
  have hs := checkSourceReliability_bounds item
  have hc := combinedScore_bounds
    (validateContentLength cfg (resolvedContent item)).2
    (checkDuplicates cfg (resolvedContent item) (resolvedId item) st).2
    (analyzeContentQuality (resolvedContent item)).2
    fmt.2
    (checkInformationDensity (resolvedContent item)).2
    (validateMetadata item).2
    (checkSourceReliability item).2
    hlen.1 hlen.2 hdup.1 hdup.2 hq.1 hf.1 hdn.1 hm.1 hs.1
  exact pyRound2_bounds hc.1 hc.2

set_option maxRecDepth 8000 in
unseal Rat.add Rat.sub Rat.mul Rat.inv in
/-- C3 witness: the amended range theorem applied to a concrete
validation. -/
theorem C3_witness :
    validateSingleContent {} wItemShort {} = .ok (wReportShort, {}) ∧
    (-9 ≤ wReportShort.score ∧ wReportShort.score ≤ 10) :=
  ⟨by decide, C3_amended_score_range {} wItemShort {} wReportShort {} (by decide)⟩

/-- C4: the combined score of `validate_single_content` is exactly: start
at 10.0, subtract the length and duplication penalties
(`10 - dimension_score` each, so those two dimensions are additive), then
cap with each of the five remaining dimension scores by taking minima — and
this combination equals `min`-of-caps applied to
`length + duplication - 10`. -/
theorem C4_score_combination (cfg : QCConfig) (item : ContentItem) (st : DedupState)
    (fmtIssues : List String) (fmtScore : ℚ)
    (hfmt : validateFormat (resolvedContent item) item = .ok (fmtIssues, fmtScore))
    (r : QualityReport) (st' : DedupState)
    (h : validateSingleContent cfg item st = .ok (r, st')) :
    r.score = pyRound2 (combinedScore
      (validateContentLength cfg (resolvedContent item)).2
      (checkDuplicates cfg (resolvedContent item) (resolvedId item) st).2
      (analyzeContentQuality (resolvedContent item)).2
      fmtScore
      (checkInformationDensity (resolvedContent item)).2
      (validateMetadata item).2
      (checkSourceReliability item).2) ∧
    (∀ l d q f dn m s : ℚ, combinedScore l d q f dn m s =
      min (min (min (min (min (l + d - 10) q) f) dn) m) s) := by
  constructor
  · obtain ⟨fmt, hfmt2, hscore, -⟩ := validateSingleContent_spec cfg item st r st' h
    rw [hfmt] at hfmt2
    simp only [Except.ok.injEq] at hfmt2
    rw [hscore, ← hfmt2]
  · intro l d q f dn m s
    unfold combinedScore
    dsimp only
    rw [show (10 : ℚ) - (10 - l) - (10 - d) = l + d - 10 by ring]

set_option maxRecDepth 8000 in
unseal Rat.add Rat.sub Rat.mul Rat.inv in
/-- C4 witness: the combination formula applied to the concrete
`wItemShort` validation: 10 - (10 - 1) - (10 - 10) = 1, capped by the five
remaining dimensions (7, 10, 10, 6, 10), giving the returned score 1. -/
theorem C4_witness :
    validateFormat (resolvedContent wItemShort) wItemShort = .ok ([], 10) ∧
    wReportShort.score = pyRound2 (combinedScore
      (validateContentLength {} (resolvedContent wItemShort)).2
      (checkDuplicates {} (resolvedContent wItemShort) (resolvedId wItemShort) {}).2
      (analyzeContentQuality (resolvedContent wItemShort)).2
      10
      (checkInformationDensity (resolvedContent wItemShort)).2
      (validateMetadata wItemShort).2
      (checkSourceReliability wItemShort).2) :=
  ⟨by decide,
   (C4_score_combination {} wItemShort {} [] 10 (by decide) wReportShort {}
     (by decide)).1⟩

/-- C5: on one controller instance, (i) the normalized-content hash of a
validated item is added to the dedup set (and its fingerprint recorded)
exactly when the report's level is not REJECTED, and the state is untouched
for a REJECTED report; (ii) once the hash of an item's content is in the
dedup set, any later validation of content with an equal normalized text
scores 0.0 on the duplication dimension and yields an overall REJECTED
report; (iii) validations never remove hashes, so a recorded hash persists
across intervening validations. -/
theorem C5_dedup_insertion_and_rejection (cfg : QCConfig) :
    (∀ item st r st', validateSingleContent cfg item st = .ok (r, st') →
      (r.quality_level ≠ QualityLevel.rejected →
        st' = { contentHashes :=
                  setInsert (genContentHash (resolvedContent item)) st.contentHashes,
                contentFingerprints :=
                  dictSet (resolvedId item) (genContentHash (resolvedContent item))
                    st.contentFingerprints }) ∧
      (r.quality_level = QualityLevel.rejected → st' = st)) ∧
    (∀ item st, genContentHash (resolvedContent item) ∈ st.contentHashes →
      (checkDuplicates cfg (resolvedContent item) (resolvedId item) st).2 = 0 ∧
      ∀ r st', validateSingleContent cfg item st = .ok (r, st') →
        r.quality_level = QualityLevel.rejected) ∧
    (∀ item st r st', validateSingleContent cfg item st = .ok (r, st') →
      ∀ h, h ∈ st.contentHashes → h ∈ st'.contentHashes) := by
  refine ⟨?_, ?_, ?_⟩
  · intro item st r st' h
    obtain ⟨-, -, -, -, hins, hrej⟩ := validateSingleContent_spec cfg item st r st' h
    exact ⟨hins, hrej⟩
  · intro item st hmem
    have hdup : checkDuplicates cfg (resolvedContent item) (resolvedId item) st =
        (["Exact duplicate content detected"], 0) := by
      unfold checkDuplicates
      dsimp only
      rw [if_pos hmem]
    refine ⟨by rw [hdup], ?_⟩
    intro r st' h
    obtain ⟨fmt, hfmt, -, hlevel, -, -⟩ := validateSingleContent_spec cfg item st r st' h
    rw [hlevel, hdup]
    apply determineQualityLevel_of_lt_two
    have hrun := combinedScore_le_penalties
      (validateContentLength cfg (resolvedContent item)).2 0
      (analyzeContentQuality (resolvedContent item)).2 fmt.2
      (checkInformationDensity (resolvedContent item)).2
      (validateMetadata item).2 (checkSourceReliability item).2
    have hlen := validateContentLength_bounds cfg (resolvedContent item)
    linarith [hlen.2]
  · intro item st r st' h hx hxmem
    obtain ⟨-, -, -, -, hins, hrej⟩ := validateSingleContent_spec cfg item st r st' h
    by_cases hlevel : r.quality_level = QualityLevel.rejected
    · rw [hrej hlevel]; exact hxmem
    · rw [hins hlevel]; exact setInsert_mem hx _ st.contentHashes hxmem

set_option maxRecDepth 8000 in
unseal Rat.add Rat.sub Rat.mul Rat.inv in
/-- C5 witness: `wItemFirst` validates to GOOD and installs its hash; on
the resulting state, the byte-identical-after-normalization `wItemDup`
scores 0 on duplication and is REJECTED. -/
theorem C5_witness :
    (genContentHash (resolvedContent wItemDup) ∈ wDedupFirst.contentHashes ∧
     (checkDuplicates {} (resolvedContent wItemDup) (resolvedId wItemDup)
        wDedupFirst).2 = 0) ∧
    validateSingleContent {} wItemFirst {} = .ok (wReportFirst, wDedupFirst) ∧
    wReportFirst.quality_level ≠ QualityLevel.rejected ∧
    wDedupFirst = DedupState.mk
        (setInsert (genContentHash (resolvedContent wItemFirst)) [])
        (dictSet (resolvedId wItemFirst) (genContentHash (resolvedContent wItemFirst)) []) :=
  ⟨⟨by decide,
    ((C5_dedup_insertion_and_rejection {}).2.1 wItemDup wDedupFirst (by decide)).1⟩,
   by decide, by decide,
   (((C5_dedup_insertion_and_rejection {}).1 wItemFirst {} wReportFirst wDedupFirst
      (by decide)).1 (by decide)).symm ▸ rfl⟩

theorem filter_ne_idem {α : Type} (key : α → String) (cid : String) (l : List α) :
    ((l.filter (fun a => key a ≠ cid)).filter (fun a => key a ≠ cid)) =
      l.filter (fun a => key a ≠ cid) := by
  induction l with
  | nil => rfl
  | cons a rest ih =>
      by_cases h : key a = cid <;> simp [List.filter_cons, h, ih]

/-- C6: storing the same `content_id` twice leaves exactly one `content`
row for that id — the one built from the second call — exactly the child
rows (keywords, entities, relationships, topics, quality issues) produced
by the second call, and leaves rows of other ids untouched: the
delete-then-insert upsert is idempotent and never accumulates duplicate
child rows. -/
theorem C6_idempotent_upsert (fs : FsEnv) (pc1 pc2 : ProcessedContent)
    (vr1 vr2 : ValidationResult) (rep1 rep2 : QualityReport) (st : KnowledgeStore)
    (hid : pc1.content_id = pc2.content_id)
    (hw : fs.contentWriteFails pc2.content_id = false)
    (h1 : vr1.quality_report = some rep1)
    (h2 : vr2.quality_report = some rep2) :
    ((storeProcessedContent fs pc2 (PyReport.validation vr2)
        (storeProcessedContent fs pc1 (PyReport.validation vr1) st).2).2.content.filter
        (fun row => row.id = pc2.content_id) =
      [contentRowOf pc2 vr2.quality_score rep2]) ∧
    ((storeProcessedContent fs pc2 (PyReport.validation vr2)
        (storeProcessedContent fs pc1 (PyReport.validation vr1) st).2).2.keywords.filter
        (fun row => row.content_id = pc2.content_id) = keywordRowsOf pc2) ∧
    ((storeProcessedContent fs pc2 (PyReport.validation vr2)
        (storeProcessedContent fs pc1 (PyReport.validation vr1) st).2).2.entities.filter
        (fun row => row.content_id = pc2.content_id) = entityRowsOf pc2) ∧
    ((storeProcessedContent fs pc2 (PyReport.validation vr2)
        (storeProcessedContent fs pc1 (PyReport.validation vr1) st).2).2.relationships.filter
        (fun row => row.content_id = pc2.content_id) = relationshipRowsOf pc2) ∧
    ((storeProcessedContent fs pc2 (PyReport.validation vr2)
        (storeProcessedContent fs pc1 (PyReport.validation vr1) st).2).2.topics.filter
        (fun row => row.content_id = pc2.content_id) = topicRowsOf pc2) ∧
    ((storeProcessedContent fs pc2 (PyReport.validation vr2)
        (storeProcessedContent fs pc1 (PyReport.validation vr1) st).2).2.qualityIssues.filter
        (fun row => row.content_id = pc2.content_id) =
      qualityIssueRowsOf pc2 vr2.issues) ∧
    ((storeProcessedContent fs pc2 (PyReport.validation vr2)
        (storeProcessedContent fs pc1 (PyReport.validation vr1) st).2).2.content.filter
        (fun row => row.id ≠ pc2.content_id) =
      st.content.filter (fun row => row.id ≠ pc2.content_id)) := by
  have hw1 : fs.contentWriteFails pc1.content_id = false := by rw [hid]; exact hw
  rw [storeProcessedContent_ok fs pc1 vr1 rep1 st hw1 h1]
  dsimp only
  rw [storeProcessedContent_ok fs pc2 vr2 rep2 _ hw h2]
  dsimp only
  refine ⟨?_, ?_, ?_, ?_, ?_, ?_, ?_⟩
  · exact filter_upsert_cons (fun row : ContentRow => row.id) pc2.content_id _ _ rfl
  · exact filter_upsert_append (fun row : KeywordRow => row.content_id) pc2.content_id _ _
      (keywordRowsOf_key pc2)
  · exact filter_upsert_append (fun row : EntityRow => row.content_id) pc2.content_id _ _
      (entityRowsOf_key pc2)
  · exact filter_upsert_append (fun row : RelationshipRow => row.content_id) pc2.content_id _ _
      (relationshipRowsOf_key pc2)
  · exact filter_upsert_append (fun row : TopicRow => row.content_id) pc2.content_id _ _
      (topicRowsOf_key pc2)
  · exact filter_upsert_append (fun row : QualityIssueRow => row.content_id) pc2.content_id _ _
      (qualityIssueRowsOf_key pc2 vr2.issues)
  · rw [List.filter_cons_of_neg (by simp [contentRowOf])]
    rw [List.filter_cons_of_neg (by simp [contentRowOf, hid])]
    rw [hid]
    rw [filter_ne_idem (fun row : ContentRow => row.id) pc2.content_id,
        filter_ne_idem (fun row : ContentRow => row.id) pc2.content_id]

/-- C6 witness: two stores of the same id with different facets leave one
content row and only the second call's child rows. -/
theorem C6_witness :
    ((storeProcessedContent fsAllOk wPc2 (PyReport.validation wValidation)
        (storeProcessedContent fsAllOk wPc1 (PyReport.validation wValidation) {}).2).2.content.filter
        (fun row => row.id = wPc2.content_id) =
      [contentRowOf wPc2 wValidation.quality_score wQualityReport]) ∧
    ((storeProcessedContent fsAllOk wPc2 (PyReport.validation wValidation)
        (storeProcessedContent fsAllOk wPc1 (PyReport.validation wValidation) {}).2).2.keywords.filter
        (fun row => row.content_id = wPc2.content_id) = keywordRowsOf wPc2) ∧
    ((storeProcessedContent fsAllOk wPc2 (PyReport.validation wValidation)
        (storeProcessedContent fsAllOk wPc1 (PyReport.validation wValidation) {}).2).2.topics.filter
        (fun row => row.content_id = wPc2.content_id) = topicRowsOf wPc2) :=
  ⟨(C6_idempotent_upsert fsAllOk wPc1 wPc2 wValidation wValidation
      wQualityReport wQualityReport {} rfl rfl rfl rfl).1,
   (C6_idempotent_upsert fsAllOk wPc1 wPc2 wValidation wValidation
      wQualityReport wQualityReport {} rfl rfl rfl rfl).2.1,
   (C6_idempotent_upsert fsAllOk wPc1 wPc2 wValidation wValidation
      wQualityReport wQualityReport {} rfl rfl rfl rfl).2.2.2.2.1⟩

unseal Rat.add Rat.sub Rat.mul Rat.inv in
/-- C7 (code bug): when storing an item fails inside
`store_processed_content` — here because the full-ingestion pipeline hands
it a `QualityReport`, which has no `quality_score` attribute, so the
`INSERT` parameter tuple raises `AttributeError` — the function catches the
exception and returns the failure dictionary `{'success': False, ...}`.
`_store_approved_content` binds that dictionary to `success` and tests
`if success:`, and a nonempty dictionary is truthy, so the stored count is
incremented anyway and nothing is appended to the pipeline error list —
contradicting the claim that a failed store is not counted and its error is
recorded. -/
theorem C7_storage_failure_still_counted :
    storeDictLookup (storeProcessedContent fsAllOk wPc1
        (PyReport.quality wQualityReport) {}).1 "success" =
      some (StorePyVal.bool false) ∧
    (storeProcessedContent fsAllOk wPc1 (PyReport.quality wQualityReport) {}).2.content =
      [] ∧
    (storeApprovedContent fsAllOk [wPc1] [wQualityReport] {}).storedCount = 1 ∧
    (storeApprovedContent fsAllOk [wPc1] [wQualityReport] {}).errors = [] := by
  refine ⟨?_, ?_, ?_, ?_⟩ <;> decide

/-- C8: `run_full_ingestion` never raises: whatever the collector, processor
and file-system behaviour, it returns the statistics object with `end_time`
set; and when the `try` body raises, the returned statistics are the partial
statistics at the point of the raise with the failure appended to the error
list. -/
theorem C8_run_full_ingestion_never_raises (env : IngestionEnv) (qcCfg : QCConfig)
    (pCfg : ProcessingConfig) (store0 : KnowledgeStore) (dedup0 : DedupState) :
    (runFullIngestion env qcCfg pCfg store0 dedup0).1.end_time = true ∧
    (∀ s store dedup e,
      runFullIngestionBody env qcCfg pCfg { initialStats with start_time := true }
          store0 dedup0 = .error (s, store, dedup, e) →
      runFullIngestion env qcCfg pCfg store0 dedup0 =
        ({ s with errors := s.errors ++ [e], end_time := true }, store, dedup)) := by
  constructor
  · unfold runFullIngestion
    dsimp only
    split
    · next r h =>
        unfold runFullIngestionBody at h
        dsimp only at h
        split_ifs at h with hw
        simp only [Except.ok.injEq] at h
        rw [← h]
    · next st2 store2 dedup2 e2 h => rfl
  · intro s store dedup e h
    unfold runFullIngestion
    dsimp only
    rw [h]

/-- C8 witness: with a failing report write, the body raises and the run
still returns statistics with `end_time` set and the failure recorded. -/
theorem C8_witness :
    runFullIngestion wEnvReportFail {} {} {} {} =
      ({ start_time := true, end_time := true,
         errors := ["Ingestion report write failed"] }, {}, {}) :=
  (C8_run_full_ingestion_never_raises wEnvReportFail {} {} {} {}).2
    { start_time := true, end_time := true } {} {} "Ingestion report write failed"
    (by decide)

/-- C9 (code bug): the coordinator's `delete_collection` raises
`AttributeError` for every collection name, because `StorageManager`
defines no `delete_collection` method and the coordinator's `except` branch
re-raises — so the call never completes with a boolean, contradicting the
claim. -/
theorem C9_delete_collection_always_raises (collection_name : String)
    (user_id : Option String) :
    coordinatorDeleteCollection collection_name user_id =
      .error (.attributeMissing "delete_collection") := rfl

/-- C10: `validate_content` is total: for a `ProcessedContent`-like object,
a dictionary, or any other argument it returns a `ValidationResult` (the
pair also carries the dedup state), and whenever its `try` body raises, the
returned result has `approved = False` and `quality_score = 0.0`. -/
theorem C10_validate_content_total (cfg : QCConfig) (input : VCInput)
    (st : DedupState) :
    (∃ r st', validateContent cfg input st = (r, st')) ∧
    (∀ e, validateContentBody cfg input st = .error e →
      (validateContent cfg input st).1.approved = false ∧
      (validateContent cfg input st).1.quality_score = 0) := by
  refine ⟨⟨(validateContent cfg input st).1, (validateContent cfg input st).2, rfl⟩, ?_⟩
  intro e h
  unfold validateContent
  rw [h]
  exact ⟨rfl, rfl⟩

/-- C10 witness: a non-dictionary, non-dataclass argument makes the body
raise `AttributeError`, and the returned result is unapproved with score
zero. -/
theorem C10_witness :
    validateContentBody {} VCInput.other {} = .error (.attributeMissing "get") ∧
    (validateContent {} VCInput.other {}).1.approved = false ∧
    (validateContent {} VCInput.other {}).1.quality_score = 0 :=
  ⟨rfl, (C10_validate_content_total {} VCInput.other {}).2
    (.attributeMissing "get") rfl⟩
